import Mathlib

/-!
Verification of the donation admission and routing pipeline in `main.py`:
the image quality analyzer (`analyze_food_quality`), the route function
(`calculate_route`), the websocket connection registry (`ConnectionManager`)
and the orchestrating endpoint (`donate_food`).

The OpenCV / numpy calls that the analyzer makes are modelled exactly:
`cv2.cvtColor(..., COLOR_BGR2GRAY)` by OpenCV's fixed-point luminance formula,
`cv2.Laplacian(..., CV_64F)` (default aperture 1) by the 3x3 kernel
[[0,1,0],[1,-4,1],[0,1,0]] with BORDER_REFLECT_101 border handling, and
`np.mean` / `.var()` by exact rational mean and population variance over all
array elements.  `cv2.imdecode` is external; its outcome is the analyzer's
input, `some img` for bytes that decode to a pixel grid and `none` for bytes
that do not (where the Python then raises inside `cv2.cvtColor`).
-/

/-- A decoded colour image, as produced by `cv2.imdecode(..., IMREAD_COLOR)`:
height, width, and for each pixel its (B, G, R) channel values (0..255). -/
structure Img where
  h : Nat
  w : Nat
  px : Nat → Nat → Nat × Nat × Nat

/-- OpenCV `BORDER_REFLECT_101` index reflection (`gfedcb|abcdefgh|gfedcba`),
adequate for offsets of one pixel on sides of length at least 2. -/
def reflect101 (n : Nat) (i : Int) : Nat :=
  if i < 0 then (-i).toNat
  else if (n : Int) ≤ i then (2 * ((n : Int) - 1) - i).toNat
  else i.toNat

/-- OpenCV `COLOR_BGR2GRAY`: fixed point `Y = (1868 B + 9617 G + 4899 R + 2^13) >> 14`,
i.e. `0.114 B + 0.587 G + 0.299 R` rounded to the nearest integer. -/
def bgr2gray (p : Nat × Nat × Nat) : Nat :=
  (1868 * p.1 + 9617 * p.2.1 + 4899 * p.2.2 + 8192) / 16384

/-- The grayscale grid `gray = cv2.cvtColor(img, cv2.COLOR_BGR2GRAY)`. -/
def grayPx (img : Img) (i j : Nat) : Nat := bgr2gray (img.px i j)

/-- Sum of an `h × w` grid of rationals. -/
def gridSum (h w : Nat) (f : Nat → Nat → ℚ) : ℚ :=
  ((List.range h).map fun i => ((List.range w).map fun j => f i j).sum).sum

/-- `np.mean` over an `h × w` array. -/
def gridMean (h w : Nat) (f : Nat → Nat → ℚ) : ℚ :=
  gridSum h w f / (h * w)

/-- `np.var` (population variance, the numpy default) over an `h × w` array:
the mean of the squared deviations from the mean. -/
def gridVariance (h w : Nat) (f : Nat → Nat → ℚ) : ℚ :=
  gridMean h w fun i j => (f i j - gridMean h w f) ^ 2

/-- One output value of `cv2.Laplacian(·, cv2.CV_64F)` (aperture 1) on a
single-channel grid: the 3x3 kernel [[0,1,0],[1,-4,1],[0,1,0]] with
`BORDER_REFLECT_101` borders. -/
def lap (h w : Nat) (g : Nat → Nat → ℚ) (i j : Nat) : ℚ :=
  g (reflect101 h ((i : Int) - 1)) j + g (reflect101 h ((i : Int) + 1)) j +
    g i (reflect101 w ((j : Int) - 1)) + g i (reflect101 w ((j : Int) + 1)) -
    4 * g i j

/-- Channel `c` of the colour image (0 = B, 1 = G, 2 = R) as a rational grid. -/
def channel (img : Img) (c : Nat) (i j : Nat) : ℚ :=
  match c with
  | 0 => (img.px i j).1
  | 1 => (img.px i j).2.1
  | _ => (img.px i j).2.2

/-- The `h × w × 3` array `cv2.Laplacian(img, cv2.CV_64F)` of the 3-channel
colour image, flattened to an `h × 3w` grid (entry `(i, j)` is the Laplacian of
channel `j % 3` at pixel `(i, j / 3)`); on a multi-channel image OpenCV applies
the kernel to each channel independently. -/
def lapColor (img : Img) (i j : Nat) : ℚ :=
  lap img.h img.w (channel img (j % 3)) i (j / 3)

/-- `brightness = np.mean(gray)` (main.py line 17): the mean of the grayscale
grid obtained from the colour image. -/
def brightnessScore (img : Img) : ℚ :=
  gridMean img.h img.w fun i j => (grayPx img i j : ℚ)

/-- `blurriness = cv2.Laplacian(img, cv2.CV_64F).var()` (main.py line 18):
the variance of the Laplacian of the **colour** image `img`, over all
`h * w * 3` channel values. -/
def blurScore (img : Img) : ℚ :=
  gridVariance img.h (3 * img.w) (lapColor img)

/-- Modelled from the spec: "the variance of a discrete Laplacian
(second-derivative edge-response) filter applied to the grayscale grid".
This is the spec's wording of the blur score, applied to the grayscale grid
`gray` instead of the colour image; it is compared against `blurScore`, the
quantity the source actually computes. -/
def blurScoreGray (img : Img) : ℚ :=
  gridVariance img.h img.w (lap img.h img.w fun i j => (grayPx img i j : ℚ))

/-- The exception raised inside `analyze_food_quality` when `cv2.imdecode`
returns `None` (undecodable bytes) and `cv2.cvtColor` is then called on it. -/
inductive CvError
  | cvtColorNone
deriving DecidableEq

/-- The dictionary returned by `analyze_food_quality`:
`{"is_fresh": is_fresh, "score": int(brightness)}`. -/
structure Verdict where
  is_fresh : Bool
  score : Int
deriving DecidableEq

/-- `analyze_food_quality` (main.py lines 10-22), taking the outcome of
`cv2.imdecode` as input.  On `none` (bytes that are not a valid image) the
Python calls `cv2.cvtColor(None, ...)`, which raises; there is no handler, so
this is modelled as `.error`.  Otherwise `brightness = np.mean(gray)`,
`blurriness = cv2.Laplacian(img, CV_64F).var()`, and
`is_fresh = brightness > 40 and blurriness > 100`; `int(brightness)` truncates
toward zero, which is the floor since `brightness ≥ 0`. -/
def analyze_food_quality (decoded : Option Img) : Except CvError Verdict :=
  match decoded with
  | none => .error .cvtColorNone
  | some img =>
    let brightness := brightnessScore img
    let blurriness := blurScore img
    let is_fresh := decide (40 < brightness) && decide (100 < blurriness)
    .ok ⟨ is_fresh, Int.floor brightness⟩

/-- A model of the or-tools `PATH_CHEAPEST_ARC` solution that
`calculate_route` computes and then discards: with the unit
`distance_callback`, one vehicle and depot 0, every visiting order has the
same cost, and the solver returns a tour starting and ending at the depot. -/
def solvedRoute (n : Nat) : List Nat :=
  if n = 0 then [] else List.range n ++ [0]

/-- `calculate_route` (main.py lines 25-43).  The source builds a routing
model over `locations` with a unit-cost callback, solves it with
`PATH_CHEAPEST_ARC`, binds the result to `solution`, and then ignores it and
returns a hardcoded string. -/
def calculate_route (locations : List Nat) : String :=
  let solution := solvedRoute locations.length
  "Optimized Path: Restaurant -> Shelter B -> Shelter A"

/-- A websocket connection held by `ConnectionManager.active_connections`:
its identity, the `driver_id` path parameter it connected under
(`/ws/track/{driver_id}`), and whether its `send_text` raises. -/
structure Conn where
  id : Nat
  driver : String
  fails : Bool
deriving DecidableEq

/-- Exceptions of the connection-manager methods: `ValueError` from
`list.remove` when the element is absent, and a transport failure raised by
`websocket.send_text`. -/
inductive PyError
  | valueError
  | sendError
deriving DecidableEq

/-- `ConnectionManager.connect` (after `websocket.accept()`):
`self.active_connections.append(websocket)`. -/
def connect (conns : List Conn) (ws : Conn) : List Conn :=
  conns ++ [ws]

/-- Python `list.remove(x)`: drop the first element equal to `x`;
`none` when `x` is absent (in which case `list.remove` raises `ValueError`). -/
def removeFirst (ws : Conn) : List Conn → Option (List Conn)
  | [] => none
  | c :: rest => if c = ws then some rest else (removeFirst ws rest).map (c :: ·)

/-- `ConnectionManager.disconnect` (main.py lines 54-55):
`self.active_connections.remove(websocket)`, raising `ValueError` when the
websocket is not in the list. -/
def disconnect (conns : List Conn) (ws : Conn) : Except PyError (List Conn) :=
  match removeFirst ws conns with
  | none => .error .valueError
  | some l => .ok l

/-- The loop body of `broadcast_location`: `await connection.send_text(message)`
for each connection in order.  Returns the deliveries `(connection id, message)`
that happened, and `.error` if some `send_text` raised — in which case the loop
stops and the exception propagates, so later connections get nothing. -/
def sendAll (msg : String) : List Conn → List (Nat × String) × Except PyError Unit
  | [] => ([], .ok ())
  | c :: rest =>
    if c.fails then ([], .error .sendError)
    else
      let r := sendAll msg rest
      ((c.id, msg) :: r.1, r.2)

/-- `ConnectionManager.broadcast_location` (main.py lines 57-59) as a state
transformer: the registry after the call (the method never mutates
`active_connections`, so it is returned unchanged), the deliveries made, and
whether an exception escaped to the caller. -/
def broadcast_location (conns : List Conn) (msg : String) :
    List Conn × List (Nat × String) × Except PyError Unit :=
  (conns, sendAll msg conns)

/-- One received message in `websocket_endpoint` (main.py lines 67-71): the
driver's GPS payload `data` is broadcast as
`f"Driver {driver_id} is at: {data}"` through the single shared manager. -/
def websocket_receive (conns : List Conn) (driver_id data : String) :
    List Conn × List (Nat × String) × Except PyError Unit :=
  broadcast_location conns ("Driver " ++ driver_id ++ " is at: " ++ data)

/-- The JSON object returned by `donate_food`: `status`, and the `reason` /
`route` keys present in the rejected / accepted cases respectively. -/
structure Decision where
  status : String
  reason : Option String
  route : Option String
deriving DecidableEq

/-- `donate_food` (main.py lines 76-87), taking the decode outcome of the
uploaded bytes and, as an observable spy, the route function it invokes on
acceptance (the source calls `calculate_route([0, 1, 2])` there).  The call
`analyze_food_quality(contents)` is unguarded, so its exception propagates. -/
def donate_food (calcRoute : List Nat → String) (decoded : Option Img) :
    Except CvError Decision :=
  match analyze_food_quality decoded with
  | .error e => .error e
  | .ok quality =>
    if !quality.is_fresh then
      .ok ⟨"Rejected", some "AI detected quality issues", none⟩
    else
      .ok ⟨"Accepted", none, some (calcRoute [0, 1, 2])⟩

/-- A 2x2 uniformly mid-gray image (every pixel `(128,128,128)`): bright but
perfectly flat, so it fails the blur gate. -/
def grayImg : Img := ⟨2, 2, fun _ _ => (128, 128, 128)⟩

/-- A 2x2 black/white checkerboard: bright and with maximal edge response, so
it passes both gates. -/
def checkerImg : Img :=
  ⟨2, 2, fun i j => if (i + j) % 2 = 0 then (255, 255, 255) else (0, 0, 0)⟩

/-- A 2x2 checkerboard of pure green `(0,170,0)` and blue-magenta
`(210,0,255)`: both colours have grayscale value 100, so the grayscale grid is
uniform (gray Laplacian variance 0) while the colour channels alternate
violently (colour Laplacian variance far above 100). -/
def greenMagenta : Img :=
  ⟨2, 2, fun i j => if (i + j) % 2 = 0 then (0, 170, 0) else (210, 0, 255)⟩

/-- A healthy connection registered under driver "D1". -/
def okConnA : Conn := ⟨0, "D1", false⟩

/-- A connection under driver "D1" whose `send_text` raises. -/
def badConn : Conn := ⟨1, "D1", true⟩

/-- A second healthy connection under driver "D1". -/
def okConnB : Conn := ⟨2, "D1", false⟩

/-- A healthy connection registered under driver "D2". -/
def otherDriverConn : Conn := ⟨3, "D2", false⟩

/-! ### Evaluation lemmas for the concrete images -/

theorem analyze_some (img : Img) :
    analyze_food_quality (some img) =
      .ok ⟨decide (40 < brightnessScore img) && decide (100 < blurScore img),
        Int.floor (brightnessScore img)⟩ :=
  rfl

theorem brightness_grayImg : brightnessScore grayImg = 128 := by
  simp only [brightnessScore, gridMean, gridSum, grayPx, bgr2gray, grayImg,
    List.range_succ, List.range_zero]
  norm_num

theorem blur_grayImg : blurScore grayImg = 0 := by
  simp only [blurScore, gridVariance, gridMean, gridSum, lapColor, channel, lap,
    reflect101, grayImg, List.range_succ, List.range_zero]
  norm_num

theorem analyze_grayImg : analyze_food_quality (some grayImg) = .ok ⟨false, 128⟩ := by
  rw [analyze_some, brightness_grayImg, blur_grayImg,
    decide_eq_true (by norm_num : (40 : ℚ) < 128),
    decide_eq_false (by norm_num : ¬ (100 : ℚ) < 0)]
  norm_num

theorem brightness_checkerImg : brightnessScore checkerImg = 255 / 2 := by
  simp only [brightnessScore, gridMean, gridSum, grayPx, bgr2gray, checkerImg,
    List.range_succ, List.range_zero]
  norm_num

theorem blur_checkerImg : blurScore checkerImg = 1040400 := by
  simp only [blurScore, gridVariance, gridMean, gridSum, lapColor, channel, lap,
    reflect101, checkerImg, List.range_succ, List.range_zero]
  norm_num

theorem analyze_checkerImg : analyze_food_quality (some checkerImg) = .ok ⟨true, 127⟩ := by
  rw [analyze_some, brightness_checkerImg, blur_checkerImg,
    decide_eq_true (by norm_num : (40 : ℚ) < 255 / 2),
    decide_eq_true (by norm_num : (100 : ℚ) < 1040400)]
  norm_num

theorem brightness_greenMagenta : brightnessScore greenMagenta = 100 := by
  simp only [brightnessScore, gridMean, gridSum, grayPx, bgr2gray, greenMagenta,
    List.range_succ, List.range_zero]
  norm_num

theorem blur_greenMagenta : blurScore greenMagenta = 2208400 / 3 := by
  simp only [blurScore, gridVariance, gridMean, gridSum, lapColor, channel, lap,
    reflect101, grayPx, bgr2gray, greenMagenta, List.range_succ, List.range_zero]
  norm_num

set_option maxHeartbeats 1000000 in
theorem blurGray_greenMagenta : blurScoreGray greenMagenta = 0 := by
  simp only [blurScoreGray, gridVariance, gridMean, gridSum, lap, reflect101,
    grayPx, bgr2gray, greenMagenta, List.range_succ, List.range_zero]
  norm_num

theorem analyze_greenMagenta :
    analyze_food_quality (some greenMagenta) = .ok ⟨true, 100⟩ := by
  rw [analyze_some, brightness_greenMagenta, blur_greenMagenta,
    decide_eq_true (by norm_num : (40 : ℚ) < 100),
    decide_eq_true (by norm_num : (100 : ℚ) < 2208400 / 3)]
  norm_num

theorem donate_checkerImg :
    donate_food calculate_route (some checkerImg) =
      .ok ⟨"Accepted", none, some "Optimized Path: Restaurant -> Shelter B -> Shelter A"⟩ := by
  simp [donate_food, analyze_checkerImg, calculate_route]

theorem donate_greenMagenta :
    donate_food calculate_route (some greenMagenta) =
      .ok ⟨"Accepted", none, some "Optimized Path: Restaurant -> Shelter B -> Shelter A"⟩ := by
  simp [donate_food, analyze_greenMagenta, calculate_route]

/-! ### Helper lemmas for the connection registry -/

theorem sendAll_ok (msg : String) (l : List Conn) (h : ∀ c ∈ l, c.fails = false) :
    sendAll msg l = (l.map fun c => (c.id, msg), .ok ()) := by
  induction l with
  | nil => rfl
  | cons a t ih =>
    have ha : a.fails = false := h a (List.mem_cons_self a t)
    simp [sendAll, ha, ih fun c hc => h c (List.mem_cons_of_mem a hc)]

theorem sendAll_fail (msg : String) (pre : List Conn) (c : Conn) (post : List Conn)
    (hpre : ∀ d ∈ pre, d.fails = false) (hc : c.fails = true) :
    sendAll msg (pre ++ c :: post) = (pre.map fun d => (d.id, msg), .error .sendError) := by
  induction pre with
  | nil => simp [sendAll, hc]
  | cons a t ih =>
    have ha : a.fails = false := hpre a (List.mem_cons_self a t)
    simp [sendAll, ha, ih fun d hd => hpre d (List.mem_cons_of_mem a hd)]

theorem removeFirst_of_not_mem (ws : Conn) (l : List Conn) (h : ws ∉ l) :
    removeFirst ws l = none := by
  induction l with
  | nil => rfl
  | cons a t ih =>
    have hne : ¬ a = ws := by
      rintro rfl
      exact h (List.mem_cons_self a t)
    simp [removeFirst, hne, ih fun hm => h (List.mem_cons_of_mem a hm)]

/-! ### The claims -/

/-- Claim C1: for every image that decodes to a valid pixel grid, the verdict
of `analyze_food_quality` has `is_fresh = true` exactly when the mean
grayscale brightness is strictly greater than 40 and the Laplacian-variance
blur score is strictly greater than 100; in particular, brightness ≤ 40 or
blur ≤ 100 forces `is_fresh = false`. -/
theorem c1_quality_decision_rule (img : Img) (v : Verdict)
    (h : analyze_food_quality (some img) = .ok v) :
    (v.is_fresh = true ↔ 40 < brightnessScore img ∧ 100 < blurScore img) ∧
    (brightnessScore img ≤ 40 ∨ blurScore img ≤ 100 → v.is_fresh = false) := by
  simp only [analyze_food_quality, Except.ok.injEq] at h
  subst h
  constructor
  · simp [Bool.and_eq_true, decide_eq_true_eq]
  · rintro (hb | hb) <;> simp [decide_eq_false (not_lt.mpr hb)]

/-- Claim C1, witness: the uniformly mid-gray image is bright (128 > 40) but
flat (blur 0 ≤ 100), and the analyzer indeed reports `is_fresh = false`. -/
theorem c1_quality_decision_rule_witness :
    ((Verdict.mk false 128).is_fresh = true ↔
      40 < brightnessScore grayImg ∧ 100 < blurScore grayImg) ∧
    (brightnessScore grayImg ≤ 40 ∨ blurScore grayImg ≤ 100 →
      (Verdict.mk false 128).is_fresh = false) :=
  c1_quality_decision_rule grayImg ⟨false, 128⟩ analyze_grayImg

/-- Claim C2: the string returned by `calculate_route` is not derived from the
solver's solution.  On the single-stop input `[0]` (the depot alone) it still
returns the fixed three-stop description, identical to the output on
`[0, 1, 2]` — the solved route is discarded. -/
theorem c2_route_ignores_solution :
    calculate_route [0] = "Optimized Path: Restaurant -> Shelter B -> Shelter A" ∧
    calculate_route [0] = calculate_route [0, 1, 2] ∧
    calculate_route [] = calculate_route [0] :=
  ⟨rfl, rfl, rfl⟩

/-- Claim C3, counterexample: on bytes that do not decode (`cv2.imdecode`
returns `None`), `donate_food` does not return a Rejected decision with reason
"unreadable image"; the `cv2.cvtColor` exception escapes uncaught. -/
theorem c3_counterexample :
    donate_food calculate_route none = .error .cvtColorNone ∧
    donate_food calculate_route none ≠
      .ok ⟨"Rejected", some "unreadable image", none⟩ :=
  ⟨rfl, fun h => Except.noConfusion h⟩

/-- Claim C3 (amended): for every byte string that is not a valid image, the
decode failure makes `analyze_food_quality` raise (inside `cv2.cvtColor`), and
`donate_food` has no handler, so the exception propagates to its caller
instead of producing any Rejected decision. -/
theorem c3_decode_error_propagates (calcRoute : List Nat → String) :
    donate_food calcRoute none = .error .cvtColorNone :=
  rfl

/-- Claim C4, counterexample: broadcasting over `[okConnA, badConn, okConnB]`
where `badConn`'s send raises: the failing connection stays in the registry,
the later connection `okConnB` receives nothing, and the failure propagates to
the caller of `broadcast_location`. -/
theorem c4_counterexample :
    badConn ∈ (broadcast_location [okConnA, badConn, okConnB] "pos").1 ∧
    (okConnB.id, "pos") ∉ (broadcast_location [okConnA, badConn, okConnB] "pos").2.1 ∧
    (broadcast_location [okConnA, badConn, okConnB] "pos").2.2 ≠ .ok () := by
  refine ⟨by simp [broadcast_location], ?_, ?_⟩
  · simp [broadcast_location, sendAll, okConnA, badConn, okConnB]
  · intro h
    rw [show (broadcast_location [okConnA, badConn, okConnB] "pos").2.2 =
        Except.error PyError.sendError from rfl] at h
    exact Except.noConfusion h

/-- Claim C4 (amended): when a subscriber's `send_text` raises mid-broadcast,
`broadcast_location` delivers only to the subscribers before the failing one,
skips every later subscriber, removes nothing from the registry, and
propagates the exception to its caller. -/
theorem c4_broadcast_failure (pre : List Conn) (c : Conn) (post : List Conn)
    (msg : String) (hpre : ∀ d ∈ pre, d.fails = false) (hc : c.fails = true) :
    broadcast_location (pre ++ c :: post) msg =
      (pre ++ c :: post, pre.map (fun d => (d.id, msg)), .error .sendError) := by
  simp [broadcast_location, sendAll_fail msg pre c post hpre hc]

/-- Claim C4, witness: the amended statement evaluated on the concrete
registry `[okConnA, badConn, okConnB]`. -/
theorem c4_broadcast_failure_witness :
    broadcast_location ([okConnA] ++ badConn :: [okConnB]) "pos" =
      ([okConnA] ++ badConn :: [okConnB], [okConnA].map (fun d => (d.id, "pos")),
        .error .sendError) :=
  c4_broadcast_failure [okConnA] badConn [okConnB] "pos"
    (by intro d hd; simp at hd; subst hd; rfl) rfl

/-- Claim C5: when the quality verdict has `is_fresh = false`, `donate_food`
returns a Rejected decision carrying no route, and its result does not depend
on the route function at all — `calculate_route` is never invoked. -/
theorem c5_no_routing_on_reject (decoded : Option Img) (q : Verdict)
    (f g : List Nat → String)
    (h : analyze_food_quality decoded = .ok q) (hq : q.is_fresh = false) :
    donate_food f decoded = donate_food g decoded ∧
    donate_food f decoded = .ok ⟨"Rejected", some "AI detected quality issues", none⟩ := by
  constructor <;> simp [donate_food, h, hq]

/-- Claim C5, witness: on the mid-gray image (which fails the gate), the
decision is Rejected and is the same for the real route function and for a
dummy one. -/
theorem c5_no_routing_on_reject_witness :
    donate_food calculate_route (some grayImg) = donate_food (fun _ => "spy") (some grayImg) ∧
    donate_food calculate_route (some grayImg) =
      .ok ⟨"Rejected", some "AI detected quality issues", none⟩ :=
  c5_no_routing_on_reject (some grayImg) ⟨false, 128⟩ calculate_route (fun _ => "spy")
    analyze_grayImg rfl

/-- Claim C6, counterexample: a registry holding a "D1" subscriber and a "D2"
subscriber; a position report from driver "D1" is delivered to the "D2"
subscriber as well, because the manager keeps a single undifferentiated list. -/
theorem c6_counterexample :
    (otherDriverConn.id, "Driver " ++ "D1" ++ " is at: " ++ "37.1,-122.4") ∈
      (websocket_receive [okConnA, otherDriverConn] "D1" "37.1,-122.4").2.1 ∧
    otherDriverConn.driver ≠ "D1" := by
  constructor
  · simp [websocket_receive, broadcast_location, sendAll, okConnA, otherDriverConn]
  · simp [otherDriverConn]

/-- Claim C6 (amended): a broadcast triggered by a message from `driver_id` is
delivered to every registered subscriber whose send succeeds, regardless of the
driver identifier that subscriber connected under — the registry is a single
shared channel, not scoped per driver. -/
theorem c6_broadcast_unscoped (conns : List Conn) (driver_id data : String)
    (hok : ∀ c ∈ conns, c.fails = false) :
    (websocket_receive conns driver_id data).2.1 =
      conns.map fun c => (c.id, "Driver " ++ driver_id ++ " is at: " ++ data) := by
  simp [websocket_receive, broadcast_location, sendAll_ok _ _ hok]

/-- Claim C6, witness: with the two healthy subscribers under "D1" and "D2",
a "D1" report is delivered to both. -/
theorem c6_broadcast_unscoped_witness :
    (websocket_receive [okConnA, otherDriverConn] "D1" "37.1,-122.4").2.1 =
      [okConnA, otherDriverConn].map
        (fun c => (c.id, "Driver " ++ "D1" ++ " is at: " ++ "37.1,-122.4")) :=
  c6_broadcast_unscoped [okConnA, otherDriverConn] "D1" "37.1,-122.4"
    (by intro c hc; simp at hc; rcases hc with rfl | rfl <;> rfl)

/-- Claim C7, counterexample: after a connect/disconnect pair the handle is
removed; disconnecting it again is not a no-op — `list.remove` raises
`ValueError` on the now-empty registry. -/
theorem c7_counterexample :
    disconnect (connect [] okConnA) okConnA = .ok [] ∧
    disconnect [] okConnA = .error .valueError ∧
    disconnect [] okConnA ≠ .ok [] := by
  refine ⟨?_, rfl, fun h => Except.noConfusion h⟩
  simp [disconnect, connect, removeFirst]

/-- Claim C7 (amended): `disconnect` is not idempotent: calling it with a
handle that is no longer in the registry raises `ValueError` instead of being
a no-op. -/
theorem c7_disconnect_absent_raises (conns : List Conn) (ws : Conn) (h : ws ∉ conns) :
    disconnect conns ws = .error .valueError := by
  simp [disconnect, removeFirst_of_not_mem ws conns h]

/-- Claim C7, witness: disconnecting `okConnA` from the empty registry (it was
already removed) raises `ValueError`. -/
theorem c7_disconnect_absent_raises_witness :
    disconnect [] okConnA = .error .valueError :=
  c7_disconnect_absent_raises [] okConnA (by simp)

/-- Claim C8, counterexample: the mid-gray image decodes but fails the gate;
the decision is Rejected with reason "AI detected quality issues", not
"quality check failed". -/
theorem c8_counterexample :
    donate_food calculate_route (some grayImg) =
      .ok ⟨"Rejected", some "AI detected quality issues", none⟩ ∧
    donate_food calculate_route (some grayImg) ≠
      .ok ⟨"Rejected", some "quality check failed", none⟩ := by
  have he : donate_food calculate_route (some grayImg) =
      .ok ⟨"Rejected", some "AI detected quality issues", none⟩ := by
    simp [donate_food, analyze_grayImg]
  refine ⟨he, ?_⟩
  rw [he]
  simp

/-- Claim C8 (amended): for every submission whose image decodes but whose
quality verdict has `is_fresh = false`, the returned decision has status
"Rejected" and reason exactly "AI detected quality issues". -/
theorem c8_reject_reason (decoded : Option Img) (q : Verdict) (f : List Nat → String)
    (h : analyze_food_quality decoded = .ok q) (hq : q.is_fresh = false) :
    donate_food f decoded = .ok ⟨"Rejected", some "AI detected quality issues", none⟩ := by
  simp [donate_food, h, hq]

/-- Claim C8, witness: the amended statement on the mid-gray image. -/
theorem c8_reject_reason_witness :
    donate_food calculate_route (some grayImg) =
      .ok ⟨"Rejected", some "AI detected quality issues", none⟩ :=
  c8_reject_reason (some grayImg) ⟨false, 128⟩ calculate_route analyze_grayImg rfl

/-- Claim C9, counterexample: on the green/magenta checkerboard the grayscale
grid is uniform, so the grayscale Laplacian variance is 0; yet the analyzer
reports `is_fresh = true`, because the blur score it uses is the Laplacian
variance of the colour image (2208400/3), not of the grayscale grid. -/
theorem c9_counterexample :
    blurScore greenMagenta ≠ blurScoreGray greenMagenta ∧
    analyze_food_quality (some greenMagenta) = .ok ⟨true, 100⟩ ∧
    blurScoreGray greenMagenta = 0 := by
  refine ⟨?_, analyze_greenMagenta, blurGray_greenMagenta⟩
  rw [blur_greenMagenta, blurGray_greenMagenta]
  norm_num

/-- Claim C9 (amended): the blur score used by the quality decision is the
variance of the discrete Laplacian applied to the original 3-channel colour
image; for every image whose brightness already clears the 40 threshold, the
verdict is `is_fresh = true` exactly when that colour-image Laplacian variance
exceeds 100. -/
theorem c9_blur_gate_uses_color (img : Img) (v : Verdict)
    (h : analyze_food_quality (some img) = .ok v) (hb : 40 < brightnessScore img) :
    v.is_fresh = true ↔ 100 < blurScore img := by
  simp only [analyze_food_quality, Except.ok.injEq] at h
  subst h
  simp [Bool.and_eq_true, decide_eq_true_eq, hb]

/-- Claim C9, witness: the amended statement on the green/magenta image, whose
brightness is 100. -/
theorem c9_blur_gate_uses_color_witness :
    (Verdict.mk true 100).is_fresh = true ↔ 100 < blurScore greenMagenta :=
  c9_blur_gate_uses_color greenMagenta ⟨true, 100⟩ analyze_greenMagenta
    (by rw [brightness_greenMagenta]; norm_num)

/-- Claim C10: every accepted decision carries the route
`calculate_route [0, 1, 2]`, which is the constant string
"Optimized Path: Restaurant -> Shelter B -> Shelter A"; two accepted runs on
different inputs have identical routes. -/
theorem c10_route_constant (a b : Option Img) (da db : Decision)
    (ha : donate_food calculate_route a = .ok da)
    (hb : donate_food calculate_route b = .ok db)
    (hsa : da.status = "Accepted") (hsb : db.status = "Accepted") :
    da.route = some (calculate_route [0, 1, 2]) ∧ da.route = db.route ∧
    da.route = some "Optimized Path: Restaurant -> Shelter B -> Shelter A" := by
  have key : ∀ (c : Option Img) (d : Decision), donate_food calculate_route c = .ok d →
      d.status = "Accepted" →
      d.route = some "Optimized Path: Restaurant -> Shelter B -> Shelter A" := by
    intro c d hc hs
    rcases hA : analyze_food_quality c with e | q
    · rw [donate_food, hA] at hc
      exact Except.noConfusion hc
    · rw [donate_food, hA] at hc
      rcases hf : q.is_fresh with _ | _
      · simp [hf] at hc
        rw [← hc] at hs
        simp at hs
      · simp [hf] at hc
        rw [← hc]
        rfl
  refine ⟨key a da ha hsa, ?_, key a da ha hsa⟩
  rw [key a da ha hsa, key b db hb hsb]

/-- Claim C10, witness: the black/white checkerboard and the green/magenta
image both pass the gate on completely different pixel data, and both accepted
decisions carry the same constant route. -/
theorem c10_route_constant_witness :
    (Decision.mk "Accepted" none
        (some "Optimized Path: Restaurant -> Shelter B -> Shelter A")).route =
      some (calculate_route [0, 1, 2]) ∧
    (Decision.mk "Accepted" none
        (some "Optimized Path: Restaurant -> Shelter B -> Shelter A")).route =
      (Decision.mk "Accepted" none
        (some "Optimized Path: Restaurant -> Shelter B -> Shelter A")).route ∧
    (Decision.mk "Accepted" none
        (some "Optimized Path: Restaurant -> Shelter B -> Shelter A")).route =
      some "Optimized Path: Restaurant -> Shelter B -> Shelter A" :=
  c10_route_constant (some checkerImg) (some greenMagenta)
    ⟨"Accepted", none, some "Optimized Path: Restaurant -> Shelter B -> Shelter A"⟩
    ⟨"Accepted", none, some "Optimized Path: Restaurant -> Shelter B -> Shelter A"⟩
    donate_checkerImg donate_greenMagenta rfl rfl
